import Mathlib

/-!
Shallow embedding of `src/index.js`: an Express HTTP gateway with a JWT
middleware (`authenticateToken`), a credential-checking `/login` handler and a
dynamic `/execute-sp` dispatcher over a PostgreSQL pool.  Handlers are modelled
as pure functions from their inputs and a database oracle to an HTTP response
paired with the trace of database statements they issue.
-/

/-- JavaScript runtime values, as far as the two handlers inspect them:
`req.body` fields may be absent (`undefined`), `null`, strings, numbers,
booleans or arrays. -/
inductive JsVal where
  | undefined
  | null
  | str (s : String)
  | num (n : Int)
  | bool (b : Bool)
  | arr (vs : List JsVal)

/-- JavaScript truthiness (`!x` in the source is `!truthy x` here):
`undefined`, `null`, `""`, `0` and `false` are falsy, everything else
(arrays included) is truthy. -/
def truthy : JsVal → Bool
  | .undefined => false
  | .null => false
  | .str s => !(s == "")
  | .num n => !(n == 0)
  | .bool b => b
  | .arr _ => true

/-- The check `Array.isArray(params)` from line 138 of the source. -/
def isArray : JsVal → Bool
  | .arr _ => true
  | _ => false

/-- Extracts the element list of an array value (only used after `isArray`). -/
def asArray : JsVal → List JsVal
  | .arr vs => vs
  | _ => []

/-- A database result row as `pg` delivers it: an ordered record of
column-name/value pairs.  The `/execute-sp` dispatcher forwards rows without
inspecting them. -/
abbrev Row := List (String × JsVal)

/-- The claims object passed to `jwt.sign` on line 102: `{ id, correo }`. -/
structure Claims where
  id : Int
  correo : String
  deriving Repr, DecidableEq

/-- A JSON Web Token, abstracted: `signed c exp secret` is the result of
signing claims `c` with `secret` and expiry timestamp `exp`; any other
string a client may present is `garbage`. -/
inductive Token where
  | signed (claims : Claims) (exp : Nat) (secret : String)
  | garbage (s : String)
  deriving Repr, DecidableEq

/-- Why `jwt.verify` can fail: wrong signature, expired token, or an
unparsable token string. -/
inductive VerifyErr where
  | invalidSignature
  | expired
  | malformed
  deriving Repr, DecidableEq

/-- Behaviour of `jwt.sign(claims, secret, { expiresIn: '1h' })` at UNIX
time `now`: the token expires 3600 seconds after issuance. -/
def jwtSign (c : Claims) (secret : String) (now : Nat) : Token :=
  .signed c (now + 3600) secret

/-- Behaviour of `jwt.verify(token, secret)` at UNIX time `now`: the
signature check compares secrets, then the expiry claim is compared with the
clock (a token is rejected from its expiry instant on). -/
def jwtVerify (tok : Token) (secret : String) (now : Nat) :
    Except VerifyErr Claims :=
  match tok with
  | .garbage _ => .error .malformed
  | .signed c exp sec =>
    if sec = secret then
      if now < exp then .ok c else .error .expired
    else .error .invalidSignature

/-- A row of the `usuarios` table in the external database (the columns the
`/login` query mentions). -/
structure UserRow where
  usuario_id : Int
  nombre : String
  apellido : String
  correo : String
  contrasena : String
  activo : Bool
  deriving Repr, DecidableEq

/-- A row as returned by the `/login` SELECT: only the four projected
columns, never the password. -/
structure LoginRow where
  usuario_id : Int
  nombre : String
  apellido : String
  correo : String
  deriving Repr, DecidableEq

/-- Projection of a `usuarios` row to the four columns the `/login` query
selects. -/
def toLoginRow (r : UserRow) : LoginRow :=
  { usuario_id := r.usuario_id, nombre := r.nombre,
    apellido := r.apellido, correo := r.correo }

/-- A response body: `res.sendStatus` sends no JSON body (`none`);
`res.json({message: m})` is `msg m`; `res.json(rows)` is `rows rs`;
`/login`'s `res.json({token, usuario})` is `auth`. -/
inductive Body where
  | none
  | msg (m : String)
  | rows (rs : List Row)
  | auth (token : Token) (usuario : LoginRow)

/-- An HTTP response: status code and body.  `res.json` without an explicit
status uses 200. -/
structure Response where
  status : Nat
  body : Body

/-- One statement issued through the pool: the SQL text and the positionally
bound parameter values, exactly as passed to `pool.query(text, values)`. -/
abbrev DbCall := String × List JsVal

/-- The pool as the `/execute-sp` handler uses it: given the SQL text and
the bound values, the database either returns rows or fails with an error
message (`err.message`). -/
abbrev Db := String → List JsVal → Except String (List Row)

/-- Model of JavaScript `String.prototype.startsWith(p)`: is `p` a prefix
of the receiver? -/
def jsStartsWith (s p : String) : Bool := p.data.isPrefixOf s.data

/-- Line 141: `params.map((_, i) => dollar-sign(i+1)).join(',')` — one
positional placeholder per argument, in argument order, the empty string
for zero arguments. -/
def placeholders (n : Nat) : String :=
  String.intercalate "," ((List.range n).map (fun i => "$" ++ toString (i + 1)))

/-- Line 145: the statement text built for an `sp_`-classified identifier. -/
def spQuery (s : String) (n : Nat) : String :=
  "CALL " ++ s ++ "(" ++ placeholders n ++ ")"

/-- Line 150: the statement text built for an `fn_`/`consultar_`-classified
identifier. -/
def fnQuery (s : String) (n : Nat) : String :=
  "SELECT * FROM " ++ s ++ "(" ++ placeholders n ++ ")"

/-- The message of the `TypeError` V8 raises when `spName.startsWith` is
evaluated on a truthy non-string value (line 144); it is caught by the
handler's `catch` like any other error. -/
def startsWithTypeError : String := "spName.startsWith is not a function"

/-- The `/execute-sp` handler body (lines 135-161), after the middleware:
validate shape, classify the identifier by its leading characters, build and
run the statement, and translate any thrown error into a 500 response.
Returns the response together with the trace of statements issued through
the pool. -/
def executeSp (db : Db) (spName params : JsVal) : Response × List DbCall :=
  if !truthy spName || !isArray params then
    ({ status := 400, body := .msg "spName y params son requeridos" }, [])
  else
    match spName with
    | .str s =>
      let vs := asArray params
      if jsStartsWith s "sp_" then
        let q := spQuery s vs.length
        match db q vs with
        | .ok _ =>
          ({ status := 200, body := .msg (s ++ " ejecutado correctamente") }, [(q, vs)])
        | .error e => ({ status := 500, body := .msg e }, [(q, vs)])
      else if jsStartsWith s "fn_" || jsStartsWith s "consultar_" then
        let q := fnQuery s vs.length
        match db q vs with
        | .ok rs => ({ status := 200, body := .rows rs }, [(q, vs)])
        | .error e => ({ status := 500, body := .msg e }, [(q, vs)])
      else
        ({ status := 400, body := .msg "No se reconoce si es FUNCTION o PROCEDURE" }, [])
    | _ =>
      ({ status := 500, body := .msg startsWithTypeError }, [])

/-- A database oracle that accepts every statement and returns no rows
(used to instantiate universally quantified theorems at concrete inputs). -/
def dbOk : Db := fun _ _ => .ok []

/-- The six-value parameter list of the spec's `sp_registrar_usuario`
scenario. -/
def sixParams : List JsVal :=
  [.str "Carlos", .str "Gómez", .str "carlos@correo.com", .str "12345",
   .num 2, .null]

/-- Model of JavaScript `String.prototype.split(' ')` on the character
list: splits at every space, keeping empty segments, and always returns at
least one segment. -/
def splitSpace : List Char → List (List Char)
  | [] => [[]]
  | c :: cs =>
    if c = ' ' then [] :: splitSpace cs
    else
      match splitSpace cs with
      | [] => [[c]]
      | t :: ts => (c :: t) :: ts

/-- Line 36: `header.split(' ')[1]`, where a missing index yields
`undefined` (`Option.none` here). -/
def tokenSegment (header : String) : Option String :=
  ((splitSpace header.data).map String.mk).get? 1

/-- The decision the `authenticateToken` middleware takes: reply with a bare
status (`res.sendStatus`) or let the downstream handler run with the decoded
claims attached as `req.user`. -/
inductive AuthResult where
  | reject (status : Nat)
  | allow (user : Claims)

/-- The middleware `authenticateToken` (lines 35-44), parameterized over
`verify`, the partial application `jwt.verify(·, process.env.JWT_SECRET)`:
extract the second space-separated segment of the `Authorization` header;
if it is absent or empty reply 401; if verification fails reply 403;
otherwise attach the decoded claims and continue. -/
def authenticateToken (verify : String → Except VerifyErr Claims)
    (header : Option String) : AuthResult :=
  match header.bind tokenSegment with
  | none => .reject 401
  | some t =>
    if t = "" then .reject 401
    else
      match verify t with
      | .error _ => .reject 403
      | .ok user => .allow user

/-- A route guarded by `authenticateToken`, as `/execute-sp` is wired on
line 135: when the middleware rejects, the response is the bare status and
the handler never runs (no statement is issued); when it allows, the handler
runs with the decoded claims. -/
def runProtected (verify : String → Except VerifyErr Claims)
    (handler : Claims → Response × List DbCall)
    (header : Option String) : Response × List DbCall :=
  match authenticateToken verify header with
  | .reject s => ({ status := s, body := .none }, [])
  | .allow u => handler u

/-- The SQL text of the `/login` lookup (lines 92-94), byte for byte
including the template literal's newlines and indentation. -/
def loginQuery : String :=
  "SELECT usuario_id, nombre, apellido, correo \n       FROM usuarios \n       WHERE correo=$1 AND contrasena=$2 AND activo=true"

/-- Modelled from the spec (the database engine is an external
collaborator): PostgreSQL's evaluation of `loginQuery` over the `usuarios`
table — the rows whose stored email equals the supplied username, whose
stored plaintext password equals the supplied password, and which are
active, projected to the four selected columns. -/
def usersMatching (tbl : List UserRow) (username password : String) :
    List LoginRow :=
  (tbl.filter (fun r =>
    r.correo == username && r.contrasena == password && r.activo)).map toLoginRow

/-- The pool as the `/login` handler uses it: the two bound credential
strings go in, rows of the four selected columns or an error message come
out. -/
abbrev LoginDb := List String → Except String (List LoginRow)

/-- The `/login` handler (lines 88-111): one SELECT against `usuarios`; no
match replies 400, a match signs a 1-hour token over the row's id and email
and replies 200 with the token and the selected user fields; a thrown
database error becomes a 500 carrying `err.message`.  Returns the response
with the trace of statements issued through the pool. -/
def login (db : LoginDb) (secret : String) (now : Nat)
    (username password : String) : Response × List DbCall :=
  let trace : List DbCall := [(loginQuery, [.str username, .str password])]
  match db [username, password] with
  | .error e => ({ status := 500, body := .msg e }, trace)
  | .ok rows =>
    match rows.head? with
    | none =>
      ({ status := 400, body := .msg "Correo o contraseña incorrectos" }, trace)
    | some user =>
      ({ status := 200,
         body := .auth (jwtSign { id := user.usuario_id, correo := user.correo }
                          secret now) user }, trace)

/-- Modelled from the spec: a SQL statement is a read — it mutates no table —
exactly when it is a SELECT. -/
def isReadStatement (q : String) : Bool := jsStartsWith q "SELECT"

/-- The one-row `usuarios` table of the spec's login scenario. -/
def demoTable : List UserRow :=
  [{ usuario_id := 1, nombre := "Ada", apellido := "Admin",
     correo := "admin@piar.com", contrasena := "admin", activo := true }]

/-- A login oracle consistent with `demoTable` for any credentials. -/
def demoLoginDb : LoginDb := fun ps =>
  match ps with
  | [u, p] => .ok (usersMatching demoTable u p)
  | _ => .error "bad bind"

/-- A concrete verifier accepting exactly the token string `tok123`
(used to instantiate universally quantified theorems at concrete inputs). -/
def demoVerify : String → Except VerifyErr Claims := fun t =>
  if t = "tok123" then .ok { id := 1, correo := "admin@piar.com" }
  else .error .invalidSignature

/-- A concrete downstream handler: the `/execute-sp` body on the spec's
`consultar_usuarios` scenario (the attached claims are not inspected,
matching the source). -/
def demoHandler : Claims → Response × List DbCall := fun _ =>
  executeSp dbOk (.str "consultar_usuarios") (.arr [])

theorem splitSpace_ne_nil : ∀ l : List Char, splitSpace l ≠ []
  | [] => by simp [splitSpace]
  | c :: cs => by
    unfold splitSpace
    split
    · simp
    · split <;> simp

theorem splitSpace_no_space : ∀ l : List Char, (∀ c ∈ l, c ≠ ' ') →
    splitSpace l = [l]
  | [], _ => rfl
  | c :: cs, h => by
    have hc : c ≠ ' ' := h c (by simp)
    have ih := splitSpace_no_space cs (fun x hx => h x (by simp [hx]))
    simp [splitSpace, hc, ih]

theorem splitSpace_append : ∀ (a b : List Char), (∀ c ∈ a, c ≠ ' ') →
    splitSpace (a ++ ' ' :: b) = a :: splitSpace b
  | [], b, _ => by simp [splitSpace]
  | c :: cs, b, h => by
    have hc : c ≠ ' ' := h c (by simp)
    have ih := splitSpace_append cs b (fun x hx => h x (by simp [hx]))
    simp [splitSpace, hc, ih]

theorem string_mk_data (s : String) : String.mk s.data = s := by
  cases s; rfl

theorem tokenSegment_no_space (s : String) (h : ∀ c ∈ s.data, c ≠ ' ') :
    tokenSegment s = none := by
  simp [tokenSegment, splitSpace_no_space s.data h]

theorem tokenSegment_two_segments (scheme tok : String)
    (hs : ∀ c ∈ scheme.data, c ≠ ' ') (ht : ∀ c ∈ tok.data, c ≠ ' ') :
    tokenSegment (scheme ++ " " ++ tok) = some tok := by
  have hdata : (scheme ++ " " ++ tok).data = scheme.data ++ ' ' :: tok.data := by
    simp [String.data_append]
  rw [tokenSegment, hdata, splitSpace_append _ _ hs,
    splitSpace_no_space _ ht]
  simp [string_mk_data]

theorem jsStartsWith_ne_empty (s p : String) (hp : p ≠ "")
    (h : jsStartsWith s p = true) : s ≠ "" := by
  intro hs
  subst hs
  rw [jsStartsWith] at h
  cases p with
  | mk d =>
    cases d with
    | nil => exact hp rfl
    | cons c cs => simp [List.isPrefixOf] at h

/-- C1: past the Token Verifier, a request whose `spName` starts with `sp_`
and whose `params` is an array of length `n` executes exactly the statement
`CALL <spName>($1,...,$n)` with the `n` argument values bound positionally
(and nothing else), discards the rows, and on success replies 200 with
`{"message": "<spName> ejecutado correctamente"}`. -/
theorem executeSp_procedure_call (db : Db) (s : String) (vs : List JsVal)
    (rs : List Row)
    (hsp : jsStartsWith s "sp_" = true)
    (hdb : db (spQuery s vs.length) vs = .ok rs) :
    executeSp db (.str s) (.arr vs) =
      ({ status := 200, body := .msg (s ++ " ejecutado correctamente") },
       [(spQuery s vs.length, vs)]) := by
  have hne : s ≠ "" := jsStartsWith_ne_empty s "sp_" (by decide) hsp
  simp [executeSp, truthy, isArray, asArray, hne, hsp, hdb]

/-- C1 witness: the spec's `sp_registrar_usuario` scenario with its six
parameter values. -/
theorem executeSp_procedure_call_witness :
    executeSp dbOk (.str "sp_registrar_usuario") (.arr sixParams) =
      ({ status := 200,
         body := .msg "sp_registrar_usuario ejecutado correctamente" },
       [("CALL sp_registrar_usuario($1,$2,$3,$4,$5,$6)", sixParams)]) :=
  executeSp_procedure_call dbOk "sp_registrar_usuario" sixParams []
    (by decide) rfl

/-- C2: past the Token Verifier, a request whose `spName` starts with `fn_`
or `consultar_` and whose `params` is an array of length `n` executes
exactly the statement `SELECT * FROM <spName>($1,...,$n)` with the argument
values bound positionally, and on success replies 200 with exactly the rows
the database returned, in order. -/
theorem executeSp_function_call (db : Db) (s : String) (vs : List JsVal)
    (rs : List Row)
    (hsp : jsStartsWith s "sp_" = false)
    (hfn : (jsStartsWith s "fn_" || jsStartsWith s "consultar_") = true)
    (hdb : db (fnQuery s vs.length) vs = .ok rs) :
    executeSp db (.str s) (.arr vs) =
      ({ status := 200, body := .rows rs }, [(fnQuery s vs.length, vs)]) := by
  have hne : s ≠ "" := by
    rcases Bool.or_eq_true_iff.mp hfn with h | h
    · exact jsStartsWith_ne_empty s "fn_" (by decide) h
    · exact jsStartsWith_ne_empty s "consultar_" (by decide) h
  simp [executeSp, truthy, isArray, asArray, hne, hsp, hfn, hdb]

/-- C2 witness: the spec's `consultar_usuarios` scenario with an empty
parameter list. -/
theorem executeSp_function_call_witness :
    executeSp dbOk (.str "consultar_usuarios") (.arr []) =
      ({ status := 200, body := .rows [] },
       [("SELECT * FROM consultar_usuarios()", [])]) :=
  executeSp_function_call dbOk "consultar_usuarios" [] []
    (by decide) (by decide) rfl

/-- C3 counterexample: `spName = 5` (a number, which is not a non-empty
string) with `params = []` passes the line-138 shape check, so the handler
reaches `spName.startsWith`, the thrown `TypeError` is caught, and the
response is 500 — not the 400 the claim requires; no statement is issued. -/
theorem executeSp_nonstring_name_not_400 :
    (executeSp dbOk (.num 5) (.arr [])).1.status = 500 ∧
    (executeSp dbOk (.num 5) (.arr [])).1.status ≠ 400 ∧
    (executeSp dbOk (.num 5) (.arr [])).2 = [] :=
  ⟨rfl, by decide, rfl⟩

/-- C3 amended: past the Token Verifier, a request whose `spName` is falsy
(missing, `null`, `false`, `0` or the empty string) or whose `params` is
not an array gets a 400 response with `spName y params son requeridos`, and
no statement is issued; a truthy non-string `spName` instead yields a
caught `TypeError` and a 500, still with no database access. -/
theorem executeSp_shape_validation (db : Db) (spName params : JsVal)
    (h : truthy spName = false ∨ isArray params = false) :
    executeSp db spName params =
      ({ status := 400, body := .msg "spName y params son requeridos" }, []) := by
  rcases h with h | h <;> simp [executeSp, h]

/-- C3 witness: a request with no `spName` field and an empty `params`
array is rejected with 400. -/
theorem executeSp_shape_validation_witness :
    executeSp dbOk .undefined (.arr []) =
      ({ status := 400, body := .msg "spName y params son requeridos" }, []) :=
  executeSp_shape_validation dbOk .undefined (.arr []) (Or.inl rfl)

/-- C4: past the Token Verifier, a non-empty string `spName` starting with
none of `sp_`, `fn_`, `consultar_` gets a 400 response with
`No se reconoce si es FUNCTION o PROCEDURE`, whatever the arguments, and no
statement is issued. -/
theorem executeSp_unknown_kind_400 (db : Db) (s : String) (vs : List JsVal)
    (hne : s ≠ "")
    (h1 : jsStartsWith s "sp_" = false)
    (h2 : jsStartsWith s "fn_" = false)
    (h3 : jsStartsWith s "consultar_" = false) :
    executeSp db (.str s) (.arr vs) =
      ({ status := 400,
         body := .msg "No se reconoce si es FUNCTION o PROCEDURE" }, []) := by
  simp [executeSp, truthy, isArray, hne, h1, h2, h3]

/-- C4 witness: the spec's `bad_name` scenario. -/
theorem executeSp_unknown_kind_400_witness :
    executeSp dbOk (.str "bad_name") (.arr []) =
      ({ status := 400,
         body := .msg "No se reconoce si es FUNCTION o PROCEDURE" }, []) :=
  executeSp_unknown_kind_400 dbOk "bad_name" [] (by decide) (by decide)
    (by decide) (by decide)

/-- C5: the Token Verifier replies 401 when the header is missing or has no
second space-separated segment (or that segment is empty) and the handler
never runs; replies 403 when the segment is present but `jwt.verify`
rejects it, and the handler never runs; and when verification succeeds the
downstream handler runs with exactly the decoded claims attached. -/
theorem authenticateToken_gate (verify : String → Except VerifyErr Claims)
    (handler : Claims → Response × List DbCall) :
    (∀ header : Option String,
       header.bind tokenSegment = Option.none ∨
         header.bind tokenSegment = some "" →
       runProtected verify handler header =
         ({ status := 401, body := .none }, []))
  ∧ (∀ (header : Option String) (t : String) (e : VerifyErr),
       header.bind tokenSegment = some t → t ≠ "" → verify t = .error e →
       runProtected verify handler header =
         ({ status := 403, body := .none }, []))
  ∧ (∀ (header : Option String) (t : String) (u : Claims),
       header.bind tokenSegment = some t → t ≠ "" → verify t = .ok u →
       runProtected verify handler header = handler u) := by
  refine ⟨?_, ?_, ?_⟩
  · intro header h
    rcases h with h | h <;> simp [runProtected, authenticateToken, h]
  · intro header t e ht hne hv
    simp [runProtected, authenticateToken, ht, hne, hv]
  · intro header t u ht hne hv
    simp [runProtected, authenticateToken, ht, hne, hv]

/-- C5 witness: a missing header yields 401; an unknown token yields 403; a
valid token runs the handler on the decoded claims. -/
theorem authenticateToken_gate_witness :
    runProtected demoVerify demoHandler Option.none =
      ({ status := 401, body := .none }, [])
  ∧ runProtected demoVerify demoHandler (some "Bearer forged") =
      ({ status := 403, body := .none }, [])
  ∧ runProtected demoVerify demoHandler (some "Bearer tok123") =
      demoHandler { id := 1, correo := "admin@piar.com" } :=
  ⟨(authenticateToken_gate demoVerify demoHandler).1 Option.none (Or.inl rfl),
   (authenticateToken_gate demoVerify demoHandler).2.1 "Bearer forged"
     "forged" .invalidSignature rfl (by decide) rfl,
   (authenticateToken_gate demoVerify demoHandler).2.2 "Bearer tok123"
     "tok123" { id := 1, correo := "admin@piar.com" } rfl (by decide) rfl⟩

/-- C10 (implicit): the Token Verifier never checks the scheme word — any
header `<scheme> <token>` with a token `jwt.verify` accepts runs the
handler, whether or not the scheme is `Bearer`; and a bare token with no
space is rejected 401 even when that token would verify. -/
theorem authenticateToken_ignores_scheme
    (verify : String → Except VerifyErr Claims)
    (handler : Claims → Response × List DbCall) :
    (∀ (scheme tok : String) (u : Claims),
       (∀ c ∈ scheme.data, c ≠ ' ') → (∀ c ∈ tok.data, c ≠ ' ') →
       tok ≠ "" → verify tok = .ok u →
       runProtected verify handler (some (scheme ++ " " ++ tok)) = handler u)
  ∧ (∀ tok : String, (∀ c ∈ tok.data, c ≠ ' ') →
       runProtected verify handler (some tok) =
         ({ status := 401, body := .none }, [])) := by
  constructor
  · intro scheme tok u hs ht hne hv
    have hseg : tokenSegment (scheme ++ " " ++ tok) = some tok :=
      tokenSegment_two_segments scheme tok hs ht
    simp [runProtected, authenticateToken, hseg, hne, hv]
  · intro tok ht
    have hseg : tokenSegment tok = none := tokenSegment_no_space tok ht
    simp [runProtected, authenticateToken, hseg]

/-- C10 witness: the scheme word `Basic` is accepted with a valid token,
and the same valid token sent bare (no space) is rejected 401. -/
theorem authenticateToken_ignores_scheme_witness :
    runProtected demoVerify demoHandler (some ("Basic" ++ " " ++ "tok123")) =
      demoHandler { id := 1, correo := "admin@piar.com" }
  ∧ runProtected demoVerify demoHandler (some "tok123") =
      ({ status := 401, body := .none }, []) :=
  ⟨(authenticateToken_ignores_scheme demoVerify demoHandler).1 "Basic"
     "tok123" { id := 1, correo := "admin@piar.com" } (by decide) (by decide)
     (by decide) rfl,
   (authenticateToken_ignores_scheme demoVerify demoHandler).2 "tok123"
     (by decide)⟩

/-- C6: when the credentials match exactly one active `usuarios` row (and
the pool evaluates the login query accordingly), `/login` replies 200 with
a token signed with the process-wide secret over that row's id and email,
expiring exactly 3600 seconds from issuance (it verifies before that
instant and not after), together with the row's four non-password fields. -/
theorem login_success (db : LoginDb) (tbl : List UserRow) (secret : String)
    (now : Nat) (u p : String) (r : UserRow)
    (hmatch : tbl.filter
        (fun x => x.correo == u && x.contrasena == p && x.activo) = [r])
    (hdb : db [u, p] = .ok (usersMatching tbl u p)) :
    login db secret now u p =
      ({ status := 200,
         body := .auth
           (.signed { id := r.usuario_id, correo := r.correo }
             (now + 3600) secret)
           (toLoginRow r) },
       [(loginQuery, [.str u, .str p])])
    ∧ ∀ t : Nat,
        jwtVerify
            (.signed { id := r.usuario_id, correo := r.correo }
              (now + 3600) secret) secret t =
          .ok { id := r.usuario_id, correo := r.correo } ↔ t < now + 3600 := by
  constructor
  · have hrows : usersMatching tbl u p = [toLoginRow r] := by
      rw [usersMatching, hmatch]; rfl
    simp [login, hdb, hrows, jwtSign, toLoginRow]
  · intro t
    rw [jwtVerify]
    simp only [if_pos rfl]
    by_cases h : t < now + 3600
    · simp [h]
    · simp [h]

/-- C6 witness: the spec's login scenario against a one-row table, issued
at time 0; the resulting token verifies at time 3599 and the response
carries the four user fields. -/
theorem login_success_witness :
    login demoLoginDb "secret" 0 "admin@piar.com" "admin" =
      ({ status := 200,
         body := .auth
           (.signed { id := 1, correo := "admin@piar.com" } 3600 "secret")
           { usuario_id := 1, nombre := "Ada", apellido := "Admin",
             correo := "admin@piar.com" } },
       [(loginQuery, [.str "admin@piar.com", .str "admin"])])
    ∧ ∀ t : Nat,
        jwtVerify (.signed { id := 1, correo := "admin@piar.com" } 3600 "secret")
            "secret" t =
          .ok { id := 1, correo := "admin@piar.com" } ↔ t < 3600 :=
  login_success demoLoginDb demoTable "secret" 0 "admin@piar.com" "admin"
    { usuario_id := 1, nombre := "Ada", apellido := "Admin",
      correo := "admin@piar.com", contrasena := "admin", activo := true }
    (by decide) rfl

/-- C7: when the credentials match no active `usuarios` row (and the pool
evaluates the login query accordingly), `/login` replies 400 with the
invalid-credentials message and the body carries no token. -/
theorem login_no_match (db : LoginDb) (tbl : List UserRow) (secret : String)
    (now : Nat) (u p : String)
    (hmatch : usersMatching tbl u p = [])
    (hdb : db [u, p] = .ok (usersMatching tbl u p)) :
    login db secret now u p =
      ({ status := 400, body := .msg "Correo o contraseña incorrectos" },
       [(loginQuery, [.str u, .str p])])
    ∧ ∀ (tok : Token) (usr : LoginRow),
        (login db secret now u p).1.body ≠ .auth tok usr := by
  have h1 : login db secret now u p =
      ({ status := 400, body := .msg "Correo o contraseña incorrectos" },
       [(loginQuery, [.str u, .str p])]) := by
    simp [login, hdb, hmatch]
  refine ⟨h1, ?_⟩
  intro tok usr
  rw [h1]
  simp

/-- C7 witness: wrong password against the one-row table yields 400 and no
token. -/
theorem login_no_match_witness :
    login demoLoginDb "secret" 0 "admin@piar.com" "wrong" =
      ({ status := 400, body := .msg "Correo o contraseña incorrectos" },
       [(loginQuery, [.str "admin@piar.com", .str "wrong"])])
    ∧ ∀ (tok : Token) (usr : LoginRow),
        (login demoLoginDb "secret" 0 "admin@piar.com" "wrong").1.body ≠
          .auth tok usr :=
  login_no_match demoLoginDb demoTable "secret" 0 "admin@piar.com" "wrong"
    (by decide) rfl

/-- C8: every failure the pool raises, in `/login` or in either branch of
`/execute-sp`, is caught at the handler boundary and becomes a 500 response
whose body carries the underlying error message verbatim — a response is
sent in every case. -/
theorem handlers_echo_db_errors :
    (∀ (db : LoginDb) (secret : String) (now : Nat) (u p e : String),
       db [u, p] = .error e →
       login db secret now u p =
         ({ status := 500, body := .msg e },
          [(loginQuery, [.str u, .str p])]))
  ∧ (∀ (db : Db) (s : String) (vs : List JsVal) (e : String),
       jsStartsWith s "sp_" = true →
       db (spQuery s vs.length) vs = .error e →
       executeSp db (.str s) (.arr vs) =
         ({ status := 500, body := .msg e }, [(spQuery s vs.length, vs)]))
  ∧ (∀ (db : Db) (s : String) (vs : List JsVal) (e : String),
       jsStartsWith s "sp_" = false →
       (jsStartsWith s "fn_" || jsStartsWith s "consultar_") = true →
       db (fnQuery s vs.length) vs = .error e →
       executeSp db (.str s) (.arr vs) =
         ({ status := 500, body := .msg e }, [(fnQuery s vs.length, vs)])) := by
  refine ⟨?_, ?_, ?_⟩
  · intro db secret now u p e hdb
    simp [login, hdb]
  · intro db s vs e hsp hdb
    have hne : s ≠ "" := jsStartsWith_ne_empty s "sp_" (by decide) hsp
    simp [executeSp, truthy, isArray, asArray, hne, hsp, hdb]
  · intro db s vs e hsp hfn hdb
    have hne : s ≠ "" := by
      rcases Bool.or_eq_true_iff.mp hfn with h | h
      · exact jsStartsWith_ne_empty s "fn_" (by decide) h
      · exact jsStartsWith_ne_empty s "consultar_" (by decide) h
    simp [executeSp, truthy, isArray, asArray, hne, hsp, hfn, hdb]

/-- C8 witness: a pool failing with `connection refused` is echoed as a 500
body by all three handler paths. -/
theorem handlers_echo_db_errors_witness :
    login (fun _ => .error "connection refused") "secret" 0 "a@b.c" "pw" =
      ({ status := 500, body := .msg "connection refused" },
       [(loginQuery, [.str "a@b.c", .str "pw"])])
  ∧ executeSp (fun _ _ => .error "connection refused")
        (.str "sp_registrar_usuario") (.arr sixParams) =
      ({ status := 500, body := .msg "connection refused" },
       [("CALL sp_registrar_usuario($1,$2,$3,$4,$5,$6)", sixParams)])
  ∧ executeSp (fun _ _ => .error "connection refused")
        (.str "consultar_usuarios") (.arr []) =
      ({ status := 500, body := .msg "connection refused" },
       [("SELECT * FROM consultar_usuarios()", [])]) :=
  ⟨handlers_echo_db_errors.1 (fun _ => .error "connection refused") "secret"
     0 "a@b.c" "pw" "connection refused" rfl,
   handlers_echo_db_errors.2.1 (fun _ _ => .error "connection refused")
     "sp_registrar_usuario" sixParams "connection refused" (by decide) rfl,
   handlers_echo_db_errors.2.2 (fun _ _ => .error "connection refused")
     "consultar_usuarios" [] "connection refused" (by decide) (by decide) rfl⟩

/-- C9: on every input and against every pool behaviour, `/login` issues
exactly one statement, that statement is the fixed SELECT with the two
credentials bound, it is a read, and its text selects from the `usuarios`
table. -/
theorem login_single_read_statement (db : LoginDb) (secret : String)
    (now : Nat) (u p : String) :
    (login db secret now u p).2 = [(loginQuery, [.str u, .str p])]
    ∧ isReadStatement loginQuery = true
    ∧ ∃ a b : String, loginQuery = a ++ "FROM usuarios" ++ b := by
  refine ⟨?_, by decide, ?_⟩
  · cases hdb : db [u, p] with
    | error e => simp [login, hdb]
    | ok rows =>
      cases rows with
      | nil => simp [login, hdb]
      | cons r rest => simp [login, hdb]
  · exact ⟨"SELECT usuario_id, nombre, apellido, correo \n       ",
      " \n       WHERE correo=$1 AND contrasena=$2 AND activo=true",
      by decide⟩
